import Mathlib

/-!
Shallow embedding of the attendance-session engine of the `Trizz-ai/VC`
backend (`src/backend/app`): the session service
(`services/session_service.py`), the location service
(`services/location_service.py`), the offline operation queue
(`services/offline_service.py`) and the data model
(`models/session.py`, `models/session_event.py`, `models/meeting.py`).

Conventions of the embedding:
* Python floats are modelled as rationals (`ℚ`); `float('inf')` (used only
  in the fail-closed `ProximityResult`) is modelled as `⊤` in `WithTop ℚ`.
* The geodesic distance computed by the external `geopy` library is an
  explicit function parameter `geo : ℚ → ℚ → ℚ → ℚ → ℚ`
  (`geo lat1 lng1 lat2 lng2` = metres between the two points).
* The SQL database is a `DB` record of lists; SQLAlchemy's
  `scalar_one_or_none()` under the services' catch-all exception handlers
  (zero rows → `None`, one row → the row, several rows → exception that the
  service swallows) is `lookupOne`.
* Fresh UUIDs are passed in as explicit arguments.
* Timestamps that the claims never inspect (`ts_client`, `ts_server`,
  `created_at` of sessions) are omitted; the offline queue keeps
  `created_at`/`last_attempt` as integral epoch seconds because its
  ordering key reads them.
-/

namespace VC

/-- `models/session.py`: `SessionStatus`. -/
inductive SessionStatus
  | ACTIVE
  | CHECKED_IN
  | COMPLETED
  | ENDED
deriving DecidableEq, Repr

/-- `models/session_event.py`: `EventType`. -/
inductive EventType
  | CHECK_IN
  | CHECK_OUT
  | LOCATION_UPDATE
  | STATUS_CHANGE
deriving DecidableEq, Repr

/-- `models/meeting.py`: the `Meeting` row (columns the core reads). -/
structure Meeting where
  id : String
  name : String
  address : String
  lat : ℚ
  lng : ℚ
  radius_meters : ℚ
  is_active : Bool
deriving DecidableEq, Repr

/-- `models/session.py`: the `Session` row. -/
structure Session where
  id : String
  contact_id : String
  meeting_id : Option String
  status : SessionStatus
  session_notes : Option String
  dest_name : String
  dest_address : String
  dest_lat : ℚ
  dest_lng : ℚ
  is_complete : Bool
deriving DecidableEq, Repr

/-- `models/session_event.py`: the `SessionEvent` row (columns the claims
read; timestamps and speed/heading/altitude passthrough omitted). -/
structure SessionEvent where
  session_id : String
  type : EventType
  lat : ℚ
  lng : ℚ
  accuracy : Option ℚ
  notes : Option String
deriving DecidableEq, Repr

/-- `services/location_service.py`: `LocationData` (fields the services
read; altitude/speed/heading/timestamp are opaque passthrough). -/
structure LocationData where
  latitude : ℚ
  longitude : ℚ
  accuracy : Option ℚ
deriving DecidableEq, Repr

/-- `services/location_service.py`: `ProximityResult`. -/
structure ProximityResult where
  is_within_range : Bool
  distance_meters : WithTop ℚ
  meeting_id : Option String := none
  meeting_name : Option String := none
  accuracy_confidence : ℚ := 0
deriving DecidableEq, Repr

/-- The database visible to the services. -/
structure DB where
  meetings : List Meeting
  sessions : List Session
  events : List SessionEvent
deriving DecidableEq, Repr

/-- Geodesic distance in metres, supplied by the external `geopy` library:
`geo lat1 lng1 lat2 lng2`. -/
abbrev Geo := ℚ → ℚ → ℚ → ℚ → ℚ

/-- `scalar_one_or_none()` as used under the services' exception handlers:
exactly one matching row yields that row; zero rows yield `None`; several
rows raise `MultipleResultsFound`, which every call site below swallows
into the same outcome as `None`. -/
def lookupOne {α : Type} (p : α → Bool) (l : List α) : Option α :=
  match l.filter p with
  | [x] => some x
  | _ => none

/-! ## LocationService (`services/location_service.py`) -/

/-- `LocationService.default_radius_meters`. -/
def default_radius_meters : ℚ := 100

/-- `LocationService.max_radius_meters`. -/
def max_radius_meters : ℚ := 1000

/-- `LocationService.min_accuracy_meters`. -/
def min_accuracy_meters : ℚ := 1000

/-- `LocationService._calculate_accuracy_confidence`. -/
def calculate_accuracy_confidence (distance radius : ℚ)
    (gps_accuracy : Option ℚ) : ℚ :=
  let distance_ratio := min (distance / radius) 1
  let base_confidence := 1 - distance_ratio
  let base_confidence :=
    match gps_accuracy with
    | some a => base_confidence * max 0 (1 - a / min_accuracy_meters)
    | none => base_confidence
  max 0 (min 1 base_confidence)

/-- The fail-closed `ProximityResult` returned both when the meeting is
not found and from the catch-all exception handler of `verify_location`. -/
def failClosed : ProximityResult :=
  { is_within_range := false, distance_meters := ⊤, accuracy_confidence := 0 }

/-- `LocationService.verify_location`. -/
def verify_location (geo : Geo) (user_lat user_lng : ℚ) (meeting_id : String)
    (db : DB) (required_accuracy : Option ℚ) : ProximityResult :=
  match lookupOne (fun m => m.id == meeting_id) db.meetings with
  | none => failClosed
  | some meeting =>
    let distance := geo meeting.lat meeting.lng user_lat user_lng
    -- `meeting.radius_meters or self.default_radius_meters` (0.0 is falsy)
    let radius := if meeting.radius_meters = 0 then default_radius_meters
                  else meeting.radius_meters
    -- large radii are deliberately not capped; small ones pass through min
    let radius := if radius > max_radius_meters then radius
                  else min radius max_radius_meters
    let is_within_range := distance ≤ radius
    let accuracy_confidence :=
      calculate_accuracy_confidence distance radius required_accuracy
    { is_within_range := is_within_range
      distance_meters := (distance : WithTop ℚ)
      meeting_id := some meeting.id
      meeting_name := some meeting.name
      accuracy_confidence := accuracy_confidence }

/-- `LocationService.is_location_valid`. -/
def is_location_valid (latitude longitude : ℚ) (accuracy : Option ℚ) : Bool :=
  if ¬(-90 ≤ latitude ∧ latitude ≤ 90) ∨ ¬(-180 ≤ longitude ∧ longitude ≤ 180)
  then false
  else
    match accuracy with
    | some a => if a > 1000 then false else true
    | none => true

/-- `LocationService.create_session_event`. `meeting_id` is the string the
caller passes (possibly `str(None) = "None"`); a non-empty string is truthy,
so proximity is re-verified for `CHECK_IN`/`CHECK_OUT` events and the event
is refused when out of range. On success the event row is inserted. -/
def create_session_event (geo : Geo) (session_id : String)
    (event_type : EventType) (location_data : LocationData)
    (meeting_id : String) (notes : Option String) (db : DB) :
    Option SessionEvent × DB :=
  let verify := meeting_id ≠ "" ∧
    (event_type = EventType.CHECK_IN ∨ event_type = EventType.CHECK_OUT)
  if verify ∧ ¬(verify_location geo location_data.latitude
      location_data.longitude meeting_id db
      location_data.accuracy).is_within_range then
    (none, db)
  else
    let session_event : SessionEvent :=
      { session_id := session_id
        type := event_type
        lat := location_data.latitude
        lng := location_data.longitude
        accuracy := location_data.accuracy
        notes := notes }
    (some session_event, { db with events := db.events ++ [session_event] })

/-! ## SessionService (`services/session_service.py`) -/

/-- A session is live when its status is `ACTIVE` or `CHECKED_IN`
(the status filter of `SessionService.get_active_session`). -/
def Session.isLive (s : Session) : Bool :=
  s.status == SessionStatus.ACTIVE || s.status == SessionStatus.CHECKED_IN

/-- The row filter of `SessionService.get_active_session`: the session
belongs to the contact and is live. -/
def liveFor (contact_id : String) (s : Session) : Bool :=
  s.contact_id == contact_id && s.isLive

/-- `SessionService.get_active_session`: `scalar_one_or_none` over the
contact's `ACTIVE`/`CHECKED_IN` sessions, with the catch-all handler that
turns `MultipleResultsFound` into `None`. -/
def get_active_session (contact_id : String) (db : DB) : Option Session :=
  lookupOne (liveFor contact_id) db.sessions

/-- Python's `str(session.meeting_id)`: `str(None) = "None"`. -/
def pyStr (o : Option String) : String :=
  match o with
  | some s => s
  | none => "None"

/-- Result of `SessionService.create_session` /
`create_general_session`: a returned session or a raised error
(`ValueError` / `RuntimeError`), in both error cases after rollback. -/
inductive CreateResult
  | ok (s : Session)
  | error
deriving DecidableEq, Repr

/-- `SessionService.create_session`: requires an existing active meeting;
ends the contact's existing live session (if `get_active_session` finds
exactly one) by setting its status to `ENDED` and `is_complete`, then
inserts a fresh `ACTIVE` session carrying the meeting's destination
snapshot. No `SessionEvent` is written. `newId` is the fresh `uuid4`. -/
def create_session (contact_id meeting_id : String) (notes : Option String)
    (newId : String) (db : DB) : CreateResult × DB :=
  match lookupOne (fun m => m.id == meeting_id && m.is_active) db.meetings with
  | none => (CreateResult.error, db)  -- ValueError (not found / inactive)
  | some meeting =>
    let db1 : DB :=
      match get_active_session contact_id db with
      | some existing =>
        { db with sessions := db.sessions.map (fun s =>
            if s.id == existing.id then
              { s with status := SessionStatus.ENDED, is_complete := true }
            else s) }
      | none => db
    let session : Session :=
      { id := newId
        contact_id := contact_id
        meeting_id := some meeting.id
        status := SessionStatus.ACTIVE
        session_notes := notes
        dest_name := meeting.name
        dest_address := meeting.address
        dest_lat := meeting.lat
        dest_lng := meeting.lng
        is_complete := false }
    (CreateResult.ok session, { db1 with sessions := db1.sessions ++ [session] })

/-- `SessionService.create_general_session`: returns the existing live
session unchanged when `get_active_session` finds one; otherwise inserts a
meeting-less `ACTIVE` session with the fixed placeholder destination.
`notes or "General session created on login"` treats `""` as falsy. -/
def create_general_session (contact_id : String) (notes : Option String)
    (newId : String) (db : DB) : CreateResult × DB :=
  match get_active_session contact_id db with
  | some existing => (CreateResult.ok existing, db)
  | none =>
    let defaultNotes := "General session created on login"
    let session : Session :=
      { id := newId
        contact_id := contact_id
        meeting_id := none
        status := SessionStatus.ACTIVE
        session_notes := some (match notes with
          | some n => if n = "" then defaultNotes else n
          | none => defaultNotes)
        dest_name := "General Session"
        dest_address := "N/A"
        dest_lat := 0
        dest_lng := 0
        is_complete := false }
    (CreateResult.ok session, { db with sessions := db.sessions ++ [session] })

/-- Line 193 of `services/session_service.py`:
`is_test_meeting = "AYA Demo" in meeting.name or meeting.radius_meters >= 5000`.
The substring test is Python's `in` on strings. -/
def leadMatch : List Char → List Char → Bool
  | [], _ => true
  | _ :: _, [] => false
  | a :: as, b :: bs => a == b && leadMatch as bs

/-- `needle in hay` for Python strings, over the character lists. -/
def containsSub (needle : List Char) : List Char → Bool
  | [] => leadMatch needle []
  | c :: t => leadMatch needle (c :: t) || containsSub needle t

/-- Python `sub in s` on strings. -/
def strIn (needle hay : String) : Bool :=
  containsSub needle.data hay.data

/-- The test-meeting leniency decision of `SessionService.check_in`. -/
def is_test_meeting (meeting : Meeting) : Bool :=
  strIn "AYA Demo" meeting.name || meeting.radius_meters ≥ 5000

/-- Replace the status of every session row with the given id (the ORM
update `session.status = …` followed by `commit`). -/
def setStatus (db : DB) (id : String) (st : SessionStatus) : DB :=
  { db with sessions := db.sessions.map (fun s =>
      if s.id == id then { s with status := st } else s) }

/-- `SessionService.check_in`. Returns the created event (or `None`) and
the database after the call. The final `session.check_in_time = utcnow()`
assignment only updates the timestamp of the `CHECK_IN` event that
`create_session_event` just inserted, so it does not change the embedded
state (timestamps are not modelled). -/
def check_in (geo : Geo) (session_id : String) (location_data : LocationData)
    (notes : Option String) (db : DB) : Option SessionEvent × DB :=
  match lookupOne (fun s => s.id == session_id) db.sessions with
  | none => (none, db)
  | some session =>
    if session.status ≠ SessionStatus.ACTIVE then (none, db)
    else
      let mid := pyStr session.meeting_id
      match lookupOne (fun m => m.id == mid) db.meetings with
      | none => (none, db)
      | some meeting =>
        let proximity_result := verify_location geo location_data.latitude
          location_data.longitude mid db location_data.accuracy
        if ¬proximity_result.is_within_range ∧ ¬is_test_meeting meeting then
          (none, db)
        else
          match create_session_event geo session_id EventType.CHECK_IN
              location_data mid notes db with
          | (none, db') => (none, db')
          | (some event, db') =>
            (some event, setStatus db' session.id SessionStatus.CHECKED_IN)

/-- `SessionService.check_out`. As `check_in` but from `CHECKED_IN` to
`COMPLETED`, with no test-meeting leniency. -/
def check_out (geo : Geo) (session_id : String) (location_data : LocationData)
    (notes : Option String) (db : DB) : Option SessionEvent × DB :=
  match lookupOne (fun s => s.id == session_id) db.sessions with
  | none => (none, db)
  | some session =>
    if session.status ≠ SessionStatus.CHECKED_IN then (none, db)
    else
      let mid := pyStr session.meeting_id
      let proximity_result := verify_location geo location_data.latitude
        location_data.longitude mid db location_data.accuracy
      if ¬proximity_result.is_within_range then (none, db)
      else
        match create_session_event geo session_id EventType.CHECK_OUT
            location_data mid notes db with
        | (none, db') => (none, db')
        | (some event, db') =>
          (some event, setStatus db' session.id SessionStatus.COMPLETED)

/-- `SessionService.end_session`: looks the session up by id, sets its
status to `ENDED` and rewrites the notes; no `SessionEvent` row is
inserted (the `check_out_time` setter only touches timestamps of an
existing `CHECK_OUT` event). Returns `False` and leaves the database
unchanged when the session is not found. -/
def end_session (session_id : String) (reason : String) (db : DB) :
    Bool × DB :=
  match lookupOne (fun s => s.id == session_id) db.sessions with
  | none => (false, db)
  | some session =>
    (true,
      { db with sessions := db.sessions.map (fun s =>
          if s.id == session.id then
            { s with status := SessionStatus.ENDED,
                     session_notes := some (String.trim
                       ((s.session_notes.getD "") ++ "\nEnded: " ++ reason)) }
          else s) })

/-! ## OfflineService (`services/offline_service.py`)

The Redis state for one participant: the pending sorted set
(`offline_queue:{user_id}`, member → score, members unique) and the failed
list (`offline_failed:{user_id}`, `lpush` prepends). A member is the JSON
serialization of the operation, which on the modelled fields is injective,
so members are modelled as the operation records themselves. -/

/-- The payload dict of an `OfflineOperation` (`operation.data`), with the
keys the four `_process_*` handlers read. -/
structure OpData where
  latitude : ℚ := 0
  longitude : ℚ := 0
  accuracy : Option ℚ := none
  session_id : String := ""
  contact_id : String := ""
  meeting_id : String := ""
  notes : Option String := none
  reason : Option String := none
deriving DecidableEq, Repr

/-- `OfflineOperation` (`services/offline_service.py`). `created_at` and
`last_attempt` are epoch seconds. -/
structure OfflineOperation where
  id : String
  operation_type : String
  data : OpData
  user_id : String
  priority : Int
  max_retries : Nat
  retry_count : Nat
  created_at : Nat
  last_attempt : Option Nat
  status : String
deriving DecidableEq, Repr

/-- The per-participant queue state in Redis. -/
structure QueueState where
  pending : List (OfflineOperation × Int)
  failed : List OfflineOperation
deriving DecidableEq, Repr

/-- The ordering score
`operation.priority * 1000000 - int(operation.created_at.timestamp())`. -/
def opScore (op : OfflineOperation) : Int :=
  op.priority * 1000000 - op.created_at

/-- Redis `ZADD`: update the score of an existing member, otherwise add the
member. -/
def zadd (q : List (OfflineOperation × Int)) (op : OfflineOperation)
    (s : Int) : List (OfflineOperation × Int) :=
  if q.any (fun p => p.1 == op) then
    q.map (fun p => if p.1 == op then (op, s) else p)
  else q ++ [(op, s)]

/-- `OfflineService.queue_operation`: builds a fresh operation
(`retry_count = 0`, status `"pending"`) and `ZADD`s it with its score.
`newId` is the fresh `uuid4`, `now` the creation time. -/
def queue_operation (operation_type : String) (data : OpData)
    (user_id : String) (priority : Int) (newId : String) (now : Nat)
    (q : QueueState) : QueueState :=
  let op : OfflineOperation :=
    { id := newId
      operation_type := operation_type
      data := data
      user_id := user_id
      priority := priority
      max_retries := 3
      retry_count := 0
      created_at := now
      last_attempt := none
      status := "pending" }
  { q with pending := zadd q.pending op (opScore op) }

/-- Descending order on the stored scores (Redis `ZREVRANGE`). -/
def scoreGE (a b : OfflineOperation × Int) : Prop := b.2 ≤ a.2

instance : DecidableRel scoreGE := fun a b => Int.decLe b.2 a.2

instance : IsTotal (OfflineOperation × Int) scoreGE :=
  ⟨fun a b => le_total b.2 a.2⟩

instance : IsTrans (OfflineOperation × Int) scoreGE :=
  ⟨fun _ _ _ h1 h2 => le_trans h2 h1⟩

/-- `OfflineService.get_pending_operations`: `ZREVRANGE 0 (limit-1)` —
highest score first — parsed back into operations. Redis breaks score ties
by member lexicographic order; the embedding's sort is stable instead, and
every ordering theorem below keeps the relevant scores distinct. -/
def get_pending_operations (q : QueueState) (limit : Nat) :
    List OfflineOperation :=
  (((List.insertionSort scoreGE q.pending).take limit).map Prod.fst)

/-- `OfflineService._remove_operation`:
`zremrangebyscore(queue_key, "-inf", "+inf")` — removes every member of
the participant's pending sorted set, not just the given operation. -/
def remove_operation (q : QueueState) : QueueState :=
  { q with pending := [] }

/-- `OfflineService._move_to_failed`: `LPUSH` onto the failed list; the
pending sorted set is not touched. -/
def move_to_failed (q : QueueState) (op : OfflineOperation) : QueueState :=
  { q with failed := op :: q.failed }

/-- `OfflineService._update_operation`: `ZADD` of the re-serialized
operation. A changed `retry_count`/`status`/`last_attempt` yields a new
member, so the stale serialization stays in the set. -/
def update_operation (q : QueueState) (op : OfflineOperation) : QueueState :=
  { q with pending := zadd q.pending op (opScore op) }

/-- The operation record as `process_operation` re-queues it after a
failed attempt below `max_retries`. -/
def op_requeue (op : OfflineOperation) (now : Nat) : OfflineOperation :=
  { op with status := "pending", last_attempt := some now,
            retry_count := op.retry_count + 1 }

/-- The operation record as `process_operation` dead-letters it when the
incremented `retry_count` reaches `max_retries`. -/
def op_deadletter (op : OfflineOperation) (now : Nat) : OfflineOperation :=
  { op with status := "failed", last_attempt := some now,
            retry_count := op.retry_count + 1 }

/-- The dispatch of `OfflineService.process_operation` to the four
`_process_*` helpers (each returns success as a `Bool` and catches its own
exceptions); `newId` feeds `_process_create_session`'s fresh session id. -/
def dispatch_operation (geo : Geo) (newId : String) (op : OfflineOperation)
    (db : DB) : Bool × DB :=
  if op.operation_type == "check_in" then
    let r := check_in geo op.data.session_id
      { latitude := op.data.latitude, longitude := op.data.longitude,
        accuracy := op.data.accuracy } op.data.notes db
    (r.1.isSome, r.2)
  else if op.operation_type == "check_out" then
    let r := check_out geo op.data.session_id
      { latitude := op.data.latitude, longitude := op.data.longitude,
        accuracy := op.data.accuracy } op.data.notes db
    (r.1.isSome, r.2)
  else if op.operation_type == "create_session" then
    let r := create_session op.data.contact_id op.data.meeting_id
      op.data.notes newId db
    (r.1 != CreateResult.error, r.2)
  else if op.operation_type == "end_session" then
    let r := end_session op.data.session_id (op.data.reason.getD "Offline end") db
    r
  else (false, db)

/-- `OfflineService.process_operation`. Returns the success flag and the
queue/database after the call. An unknown operation type returns `False`
before any retry bookkeeping. -/
def process_operation (geo : Geo) (newId : String) (now : Nat)
    (op : OfflineOperation) (q : QueueState) (db : DB) :
    Bool × QueueState × DB :=
  if ¬(op.operation_type == "check_in" || op.operation_type == "check_out" ||
      op.operation_type == "create_session" ||
      op.operation_type == "end_session") then
    (false, q, db)
  else
    let op1 := { op with status := "processing", last_attempt := some now }
    let (success, db') := dispatch_operation geo newId op1 db
    if success then
      (true, remove_operation q, db')
    else
      let op2 := { op1 with retry_count := op.retry_count + 1 }
      if op2.retry_count ≥ op.max_retries then
        (false, move_to_failed q { op2 with status := "failed" }, db')
      else
        (false, update_operation q { op2 with status := "pending" }, db')

/-- `OfflineService.retry_failed_operation`: `LREM` the first member of the
failed list with the given id, reset `retry_count` to 0 and status to
`"pending"`, and `ZADD` it back onto the pending set. -/
def retry_failed_operation (operation_id : String) (q : QueueState) :
    Bool × QueueState :=
  match q.failed.find? (fun o => o.id == operation_id) with
  | none => (false, q)
  | some op =>
    let op' := { op with retry_count := 0, status := "pending" }
    (true,
      { pending := zadd q.pending op' (opScore op')
        failed := q.failed.eraseP (fun o => o.id == operation_id) })

/-! ## HTTP layer for check-in
(`api/v1/endpoints/sessions.py`, `core/exceptions.py`) -/

/-- Outcome of the `POST /{session_id}/check-in` endpoint: the serialized
event, or an `HTTPException`/error response with its status code. -/
inductive ApiOutcome
  | ok (e : SessionEvent)
  | httpError (status_code : Nat)
deriving DecidableEq, Repr

/-- `core/exceptions.py`: `conflict_error_handler` answers a raised
`ConflictError` with `HTTP_409_CONFLICT`. -/
def conflict_error_status : Nat := 409

/-- The `check_in` endpoint of `api/v1/endpoints/sessions.py`: rejects
invalid location data with HTTP 400, then calls
`SessionService.check_in` and maps a `None` result to a generic HTTP 400
(`"Check-in failed - location verification failed"`). -/
def endpoint_check_in (geo : Geo) (session_id : String)
    (event_data : LocationData) (notes : Option String) (db : DB) :
    ApiOutcome × DB :=
  if ¬is_location_valid event_data.latitude event_data.longitude
      event_data.accuracy then
    (ApiOutcome.httpError 400, db)
  else
    match check_in geo session_id event_data notes db with
    | (none, db') => (ApiOutcome.httpError 400, db')
    | (some e, db') => (ApiOutcome.ok e, db')

/-! ## Reachable states of the session engine -/

/-- One invocation of a core session operation (the external inputs —
contact, meeting, location, notes, fresh UUIDs — are arbitrary). The
`meetingsUpdated` step models the external meeting-management collaborator
rewriting the meetings table between calls. -/
inductive Step (geo : Geo) : DB → DB → Prop
  | create (db : DB) (contact_id meeting_id : String) (notes : Option String)
      (newId : String) :
      Step geo db (create_session contact_id meeting_id notes newId db).2
  | createGeneral (db : DB) (contact_id : String) (notes : Option String)
      (newId : String) :
      Step geo db (create_general_session contact_id notes newId db).2
  | checkIn (db : DB) (session_id : String) (loc : LocationData)
      (notes : Option String) :
      Step geo db (check_in geo session_id loc notes db).2
  | checkOut (db : DB) (session_id : String) (loc : LocationData)
      (notes : Option String) :
      Step geo db (check_out geo session_id loc notes db).2
  | endSession (db : DB) (session_id reason : String) :
      Step geo db (end_session session_id reason db).2
  | meetingsUpdated (db : DB) (ms : List Meeting) :
      Step geo db { db with meetings := ms }

/-- States reachable from a session-free database by core operations. -/
inductive Reachable (geo : Geo) : DB → Prop
  | init (meetings : List Meeting) :
      Reachable geo { meetings := meetings, sessions := [], events := [] }
  | step {db db' : DB} : Reachable geo db → Step geo db db' → Reachable geo db'

/-- Number of live (`ACTIVE`/`CHECKED_IN`) sessions of one contact. -/
def liveCount (db : DB) (c : String) : Nat :=
  db.sessions.countP (liveFor c)

/-- The §3 invariant: at most one live session per participant. -/
def atMostOneLive (db : DB) : Prop :=
  ∀ c, liveCount db c ≤ 1

/-! ### Helper lemmas about `lookupOne` and live counts -/

theorem lookupOne_eq_some {α : Type} {p : α → Bool} {l : List α} {x : α}
    (h : lookupOne p l = some x) : l.filter p = [x] := by
  unfold lookupOne at h
  cases hf : l.filter p with
  | nil => rw [hf] at h; exact absurd h (by simp)
  | cons a t =>
    cases t with
    | nil => rw [hf] at h; simp at h; simp [h]
    | cons b t' => rw [hf] at h; exact absurd h (by simp)

theorem lookupOne_sound {α : Type} {p : α → Bool} {l : List α} {x : α}
    (h : lookupOne p l = some x) :
    x ∈ l ∧ p x = true ∧ ∀ y ∈ l, p y = true → y = x := by
  have hf := lookupOne_eq_some h
  have hx : x ∈ l.filter p := by rw [hf]; exact List.mem_singleton.mpr rfl
  refine ⟨(List.mem_filter.mp hx).1, (List.mem_filter.mp hx).2, ?_⟩
  intro y hy hpy
  have : y ∈ l.filter p := List.mem_filter.mpr ⟨hy, hpy⟩
  rw [hf] at this
  exact List.mem_singleton.mp this

theorem lookupOne_none_countP {α : Type} {p : α → Bool} {l : List α}
    (h : lookupOne p l = none) (hle : l.countP p ≤ 1) : l.countP p = 0 := by
  rw [List.countP_eq_length_filter] at *
  unfold lookupOne at h
  cases hf : l.filter p with
  | nil => simp [hf]
  | cons a t =>
    cases t with
    | nil => rw [hf] at h; exact absurd h (by simp)
    | cons b t' => rw [hf] at hle; simp at hle

theorem countP_map_le {α : Type} {l : List α} {p : α → Bool} {f : α → α}
    (hf : ∀ s ∈ l, p (f s) = true → p s = true) :
    (l.map f).countP p ≤ l.countP p := by
  rw [List.countP_map]
  exact List.countP_mono_left (fun x hx h => hf x hx h)

theorem countP_map_eq {α : Type} {l : List α} {p : α → Bool} {f : α → α}
    (hf : ∀ s ∈ l, p (f s) = p s) :
    (l.map f).countP p = l.countP p := by
  rw [List.countP_map]
  exact List.countP_congr (fun x hx => by simp [Function.comp, hf x hx])

theorem countP_singleton_le_one {α : Type} (p : α → Bool) (x : α) :
    List.countP p [x] ≤ 1 := by
  simp only [List.countP_cons, List.countP_nil]
  split <;> simp

theorem countP_append_le_one {α : Type} {p : α → Bool} {l : List α} {x : α}
    (h : l.countP p = 0) : (l ++ [x]).countP p ≤ 1 := by
  rw [List.countP_append]
  have := countP_singleton_le_one p x
  omega

theorem countP_append_notP_le {α : Type} {p : α → Bool} {l : List α} {x : α}
    (h : l.countP p ≤ 1) (hx : p x = false) : (l ++ [x]).countP p ≤ 1 := by
  rw [List.countP_append]
  simp [List.countP_cons, hx]
  omega

/-- `create_session` preserves the one-live-session invariant. -/
theorem atMostOneLive_create_session {db : DB} (h : atMostOneLive db)
    (contact_id meeting_id : String) (notes : Option String)
    (newId : String) :
    atMostOneLive (create_session contact_id meeting_id notes newId db).2 := by
  unfold create_session
  cases hm : lookupOne (fun m => m.id == meeting_id && m.is_active) db.meetings with
  | none => simpa using h
  | some meeting =>
    cases ha : get_active_session contact_id db with
    | none =>
      intro c
      simp only [liveCount]
      by_cases hc : c = contact_id
      · subst hc
        exact countP_append_le_one (lookupOne_none_countP ha (h c))
      · refine countP_append_notP_le (h c) ?_
        simp only [liveFor, Bool.and_eq_false_imp]
        intro hcc
        exact absurd (eq_of_beq hcc).symm hc
    | some existing =>
      intro c
      have huniq : ∀ y ∈ db.sessions, liveFor contact_id y = true →
          y = existing := (lookupOne_sound ha).2.2
      simp only [liveCount]
      by_cases hc : c = contact_id
      · subst hc
        refine countP_append_le_one ?_
        rw [List.countP_map, List.countP_eq_zero]
        intro s hs
        simp only [Function.comp]
        by_cases hid : s.id == existing.id
        · simp [hid, liveFor, Session.isLive]
        · rw [if_neg hid]
          cases hl : liveFor c s with
          | false => simp [hl]
          | true =>
            have := huniq s hs hl
            subst this
            simp at hid
      · refine countP_append_notP_le (le_trans ?_ (h c)) ?_
        · apply countP_map_le
          intro s _ hp
          by_cases hid : s.id == existing.id
          · rw [if_pos hid] at hp
            simp [liveFor, Session.isLive] at hp
          · rwa [if_neg hid] at hp
        · simp only [liveFor, Bool.and_eq_false_imp]
          intro hcc
          exact absurd (eq_of_beq hcc).symm hc

/-- `create_general_session` preserves the one-live-session invariant. -/
theorem atMostOneLive_create_general {db : DB} (h : atMostOneLive db)
    (contact_id : String) (notes : Option String) (newId : String) :
    atMostOneLive (create_general_session contact_id notes newId db).2 := by
  unfold create_general_session
  cases ha : get_active_session contact_id db with
  | some existing => simpa using h
  | none =>
    intro c
    simp only [liveCount]
    by_cases hc : c = contact_id
    · subst hc
      exact countP_append_le_one (lookupOne_none_countP ha (h c))
    · refine countP_append_notP_le (h c) ?_
      simp only [liveFor, Bool.and_eq_false_imp]
      intro hcc
      exact absurd (eq_of_beq hcc).symm hc

/-- A pointwise session update that never revives a dead session and keeps
the owner preserves the invariant. -/
theorem atMostOneLive_mapUpdate {db : DB} (h : atMostOneLive db)
    (f : Session → Session)
    (hc : ∀ s ∈ db.sessions, (f s).contact_id = s.contact_id)
    (hlive : ∀ s ∈ db.sessions, (f s).isLive = true → s.isLive = true) :
    atMostOneLive { db with sessions := db.sessions.map f } := by
  intro c
  simp only [liveCount]
  refine le_trans (countP_map_le ?_) (h c)
  intro s hs hp
  simp only [liveFor, Bool.and_eq_true] at hp ⊢
  exact ⟨by rw [← hc s hs]; exact hp.1, hlive s hs hp.2⟩

/-- The sessions table is untouched by `create_session_event`. -/
theorem create_session_event_sessions (geo : Geo) (session_id : String)
    (event_type : EventType) (location_data : LocationData)
    (meeting_id : String) (notes : Option String) (db : DB) :
    (create_session_event geo session_id event_type location_data meeting_id
      notes db).2.sessions = db.sessions := by
  unfold create_session_event
  dsimp only
  split <;> rfl

/-- The meetings table is untouched by `create_session_event`. -/
theorem create_session_event_meetings (geo : Geo) (session_id : String)
    (event_type : EventType) (location_data : LocationData)
    (meeting_id : String) (notes : Option String) (db : DB) :
    (create_session_event geo session_id event_type location_data meeting_id
      notes db).2.meetings = db.meetings := by
  unfold create_session_event
  dsimp only
  split <;> rfl

/-- `check_in` preserves the one-live-session invariant. -/
theorem atMostOneLive_check_in {db : DB} (h : atMostOneLive db) (geo : Geo)
    (session_id : String) (loc : LocationData) (notes : Option String) :
    atMostOneLive (check_in geo session_id loc notes db).2 := by
  unfold check_in
  split
  · exact h
  next session hs =>
    obtain ⟨hmem, hp, huniq⟩ := lookupOne_sound hs
    split
    · exact h
    next hst =>
      have hact : session.status = SessionStatus.ACTIVE := not_not.mp hst
      dsimp only
      split
      · exact h
      next meeting hm =>
        split
        · exact h
        next hcond =>
          split
          next o db' hev =>
            have hdb' : db'.sessions = db.sessions := by
              have := create_session_event_sessions geo session_id
                EventType.CHECK_IN loc (pyStr session.meeting_id) notes db
              rw [hev] at this
              exact this
            intro c
            simp only [liveCount, hdb']
            exact h c
          next event db' hev =>
            have hdb' : db'.sessions = db.sessions := by
              have := create_session_event_sessions geo session_id
                EventType.CHECK_IN loc (pyStr session.meeting_id) notes db
              rw [hev] at this
              exact this
            have h' : atMostOneLive db' := by
              intro c
              simp only [liveCount, hdb']
              exact h c
            have hrw : setStatus db' session.id SessionStatus.CHECKED_IN =
                { db' with sessions := db'.sessions.map (fun s =>
                    if s.id == session.id then
                      { s with status := SessionStatus.CHECKED_IN }
                    else s) } := rfl
            rw [hrw]
            refine atMostOneLive_mapUpdate h' _ ?_ ?_
            · intro s _
              split <;> rfl
            · intro s hsmem
              rw [hdb'] at hsmem
              by_cases hid : s.id == session.id
              · rw [if_pos hid]
                intro _
                have hsid : (s.id == session_id) = true := by
                  have h1 : session.id = session_id := eq_of_beq hp
                  simp [eq_of_beq hid, h1]
                have : s = session := huniq s hsmem hsid
                subst this
                simp [Session.isLive, hact]
              · rw [if_neg hid]
                exact fun hh => hh

/-- `check_out` preserves the one-live-session invariant. -/
theorem atMostOneLive_check_out {db : DB} (h : atMostOneLive db) (geo : Geo)
    (session_id : String) (loc : LocationData) (notes : Option String) :
    atMostOneLive (check_out geo session_id loc notes db).2 := by
  unfold check_out
  split
  · exact h
  next session hs =>
    split
    · exact h
    next hst =>
      dsimp only
      split
      · exact h
      next hcond =>
        split
        next o db' hev =>
          have hdb' : db'.sessions = db.sessions := by
            have := create_session_event_sessions geo session_id
              EventType.CHECK_OUT loc (pyStr session.meeting_id) notes db
            rw [hev] at this
            exact this
          intro c
          simp only [liveCount, hdb']
          exact h c
        next event db' hev =>
          have hdb' : db'.sessions = db.sessions := by
            have := create_session_event_sessions geo session_id
              EventType.CHECK_OUT loc (pyStr session.meeting_id) notes db
            rw [hev] at this
            exact this
          have h' : atMostOneLive db' := by
            intro c
            simp only [liveCount, hdb']
            exact h c
          have hrw : setStatus db' session.id SessionStatus.COMPLETED =
              { db' with sessions := db'.sessions.map (fun s =>
                  if s.id == session.id then
                    { s with status := SessionStatus.COMPLETED }
                  else s) } := rfl
          rw [hrw]
          refine atMostOneLive_mapUpdate h' _ ?_ ?_
          · intro s _
            split <;> rfl
          · intro s _
            by_cases hid : s.id == session.id
            · rw [if_pos hid]
              intro hh
              simp [Session.isLive] at hh
            · rw [if_neg hid]
              exact fun hh => hh

/-- `end_session` preserves the one-live-session invariant. -/
theorem atMostOneLive_end_session {db : DB} (h : atMostOneLive db)
    (session_id reason : String) :
    atMostOneLive (end_session session_id reason db).2 := by
  unfold end_session
  split
  · exact h
  next session hs =>
    refine atMostOneLive_mapUpdate h _ ?_ ?_
    · intro s _
      split <;> rfl
    · intro s _
      by_cases hid : s.id == session.id
      · rw [if_pos hid]
        intro hh
        simp [Session.isLive] at hh
      · rw [if_neg hid]
        exact fun hh => hh

/-- C1: for every participant and every state reachable from a session-free
database by any sequence of the core operations (`create_session`,
`create_general_session`, `check_in`, `check_out`, `end_session`, plus
arbitrary external edits of the meetings table), at most one of that
participant's sessions is `ACTIVE` or `CHECKED_IN`; in particular
`create_session` terminates a live session before inserting the new one. -/
theorem claim_C1_at_most_one_live_session (geo : Geo) (db : DB)
    (h : Reachable geo db) : atMostOneLive db := by
  induction h with
  | init meetings =>
    intro c
    simp [liveCount, atMostOneLive]
  | step _ hstep ih =>
    cases hstep with
    | create cid mid notes newId =>
      exact atMostOneLive_create_session ih cid mid notes newId
    | createGeneral cid notes newId =>
      exact atMostOneLive_create_general ih cid notes newId
    | checkIn sid loc notes =>
      exact atMostOneLive_check_in ih geo sid loc notes
    | checkOut sid loc notes =>
      exact atMostOneLive_check_out ih geo sid loc notes
    | endSession sid reason =>
      exact atMostOneLive_end_session ih sid reason
    | meetingsUpdated ms =>
      intro c
      exact ih c

/-- Witness for C1 at the empty initial database. -/
theorem claim_C1_witness :
    liveCount { meetings := [], sessions := [], events := [] } "p" ≤ 1 :=
  claim_C1_at_most_one_live_session (fun _ _ _ _ => 0) _ (Reachable.init []) "p"

/-! ### GeoVerifier arithmetic (claim C4) -/

theorem clamp01_of_mem {x : ℚ} (h0 : 0 ≤ x) (h1 : x ≤ 1) :
    max 0 (min 1 x) = x := by
  rw [min_eq_right h1, max_eq_right h0]

theorem clamp01_nonneg (x : ℚ) : 0 ≤ max 0 (min 1 x) := le_max_left 0 _

theorem clamp01_le_one (x : ℚ) : max 0 (min 1 x) ≤ 1 :=
  max_le (by norm_num) (min_le_left 1 x)

/-- When the meeting is found and its radius is positive, `verify_location`
uses the meeting's own radius (the `or` default and the cap are inert) and
returns the distance, the range test and the confidence. -/
theorem verify_location_spec (geo : Geo) (ulat ulng : ℚ) (mid : String)
    (db : DB) (acc : Option ℚ) (m : Meeting)
    (hm : lookupOne (fun x => x.id == mid) db.meetings = some m)
    (hr : 0 < m.radius_meters) :
    verify_location geo ulat ulng mid db acc =
      { is_within_range := decide (geo m.lat m.lng ulat ulng ≤ m.radius_meters)
        distance_meters := (geo m.lat m.lng ulat ulng : WithTop ℚ)
        meeting_id := some m.id
        meeting_name := some m.name
        accuracy_confidence := calculate_accuracy_confidence
          (geo m.lat m.lng ulat ulng) m.radius_meters acc } := by
  unfold verify_location
  rw [hm]
  dsimp only
  rw [if_neg (ne_of_gt hr)]
  by_cases hc : m.radius_meters > max_radius_meters
  · rw [if_pos hc]
  · rw [if_neg hc, min_eq_left (le_of_not_lt hc)]

/-- The confidence value, written as the product of the two clamped
factors, for nonnegative distance and accuracy and a positive radius. -/
theorem calc_conf_spec (d R : ℚ) (acc : Option ℚ) (hR : 0 < R) (hd : 0 ≤ d)
    (hacc : ∀ a ∈ acc, 0 ≤ a) :
    calculate_accuracy_confidence d R acc =
      max 0 (min 1 (1 - d / R)) *
        acc.elim 1 (fun a => max 0 (min 1 (1 - a / min_accuracy_meters))) := by
  have hdr : 0 ≤ d / R := div_nonneg hd hR.le
  have hbase : (1 : ℚ) - min (d / R) 1 = max 0 (min 1 (1 - d / R)) := by
    rcases le_total (d / R) 1 with hc | hc
    · rw [min_eq_left hc, min_eq_right (by linarith), max_eq_right (by linarith)]
    · rw [min_eq_right hc,
        min_eq_right (by linarith : (1 : ℚ) - d / R ≤ 1),
        max_eq_left (by linarith)]
      norm_num
  have hb0 : 0 ≤ (1 : ℚ) - min (d / R) 1 := by
    have := min_le_right (d / R) 1
    linarith
  have hb1 : (1 : ℚ) - min (d / R) 1 ≤ 1 := by
    have : 0 ≤ min (d / R) 1 := le_min hdr (by norm_num)
    linarith
  cases acc with
  | none =>
    unfold calculate_accuracy_confidence
    simp only [Option.elim_none]
    rw [mul_one, clamp01_of_mem hb0 hb1, hbase]
  | some a =>
    have ha : 0 ≤ a := hacc a rfl
    have hfa : 0 ≤ a / min_accuracy_meters :=
      div_nonneg ha (by norm_num [min_accuracy_meters])
    have hf1 : (1 : ℚ) - a / min_accuracy_meters ≤ 1 := by linarith
    have hfac0 : 0 ≤ max 0 (1 - a / min_accuracy_meters) := le_max_left 0 _
    have hfac1 : max 0 (1 - a / min_accuracy_meters) ≤ 1 :=
      max_le (by norm_num) hf1
    unfold calculate_accuracy_confidence
    simp only [Option.elim_some]
    have hprod0 : 0 ≤ (1 - min (d / R) 1) * max 0 (1 - a / min_accuracy_meters) :=
      mul_nonneg hb0 hfac0
    have hprod1 : (1 - min (d / R) 1) * max 0 (1 - a / min_accuracy_meters) ≤ 1 := by
      nlinarith
    rw [clamp01_of_mem hprod0 hprod1, hbase, min_eq_right hf1]

/-- C4: for a meeting with a positive radius, `verify_location` reports
`withinRange` exactly when the geodesic distance is at most the radius, and
the confidence is the product of the clamped margin factor
`1 - distance/radius` and (when accuracy is present) the clamped accuracy
factor `1 - accuracy/maxAccuracy`; the confidence lies in `[0,1]`, is `1`
at the centre with accuracy `0`, and is `0` at or beyond the radius. -/
theorem claim_C4_verify_location (geo : Geo) (ulat ulng : ℚ) (mid : String)
    (db : DB) (acc : Option ℚ) (m : Meeting)
    (hm : lookupOne (fun x => x.id == mid) db.meetings = some m)
    (hr : 0 < m.radius_meters)
    (hd : 0 ≤ geo m.lat m.lng ulat ulng)
    (hacc : ∀ a ∈ acc, 0 ≤ a) :
    ((verify_location geo ulat ulng mid db acc).is_within_range = true ↔
      geo m.lat m.lng ulat ulng ≤ m.radius_meters) ∧
    (verify_location geo ulat ulng mid db acc).accuracy_confidence =
      max 0 (min 1 (1 - geo m.lat m.lng ulat ulng / m.radius_meters)) *
        acc.elim 1 (fun a => max 0 (min 1 (1 - a / min_accuracy_meters))) ∧
    (0 ≤ (verify_location geo ulat ulng mid db acc).accuracy_confidence ∧
      (verify_location geo ulat ulng mid db acc).accuracy_confidence ≤ 1) ∧
    (geo m.lat m.lng ulat ulng = 0 → acc = some 0 →
      (verify_location geo ulat ulng mid db acc).accuracy_confidence = 1) ∧
    (m.radius_meters ≤ geo m.lat m.lng ulat ulng →
      (verify_location geo ulat ulng mid db acc).accuracy_confidence = 0) := by
  rw [verify_location_spec geo ulat ulng mid db acc m hm hr]
  set d := geo m.lat m.lng ulat ulng with hdd
  refine ⟨by simp, ?_, ?_, ?_, ?_⟩
  · exact calc_conf_spec d m.radius_meters acc hr hd hacc
  · rw [calc_conf_spec d m.radius_meters acc hr hd hacc]
    constructor
    · refine mul_nonneg (clamp01_nonneg _) ?_
      cases acc with
      | none => norm_num
      | some a => simp only [Option.elim_some]; exact clamp01_nonneg _
    · refine mul_le_one₀ (clamp01_le_one _) ?_ ?_
      · cases acc with
        | none => norm_num
        | some a => simp only [Option.elim_some]; exact clamp01_nonneg _
      · cases acc with
        | none => norm_num
        | some a => simp only [Option.elim_some]; exact clamp01_le_one _
  · intro h0 hacc0
    subst hacc0
    rw [calc_conf_spec d m.radius_meters (some 0) hr hd hacc, h0]
    simp only [Option.elim_some]
    norm_num
  · intro hge
    rw [calc_conf_spec d m.radius_meters acc hr hd hacc]
    have h1 : (1 : ℚ) ≤ d / m.radius_meters := (one_le_div hr).mpr hge
    have : min 1 (1 - d / m.radius_meters) = 1 - d / m.radius_meters := by
      rw [min_eq_right]
      linarith
    rw [this, max_eq_left (by linarith), zero_mul]

/-- The concrete meeting used by the C4 witness. -/
def m4 : Meeting :=
  { id := "m1", name := "Weekly Meeting", address := "1 Main St",
    lat := 40, lng := -74, radius_meters := 100, is_active := true }

/-- The concrete database used by the C4 witness. -/
def db4 : DB := { meetings := [m4], sessions := [], events := [] }

/-- Witness for C4: a meeting of radius 100 at distance 8 with accuracy 10. -/
theorem claim_C4_witness :
    ((verify_location (fun _ _ _ _ => 8) 40 (-74) "m1" db4
        (some 10)).is_within_range = true ↔ (8 : ℚ) ≤ m4.radius_meters) ∧
    (verify_location (fun _ _ _ _ => 8) 40 (-74) "m1" db4
        (some 10)).accuracy_confidence =
      max 0 (min 1 (1 - (8 : ℚ) / m4.radius_meters)) *
        (some (10 : ℚ)).elim 1
          (fun a => max 0 (min 1 (1 - a / min_accuracy_meters))) ∧
    (0 ≤ (verify_location (fun _ _ _ _ => 8) 40 (-74) "m1" db4
        (some 10)).accuracy_confidence ∧
      (verify_location (fun _ _ _ _ => 8) 40 (-74) "m1" db4
        (some 10)).accuracy_confidence ≤ 1) ∧
    ((8 : ℚ) = 0 → some (10 : ℚ) = some 0 →
      (verify_location (fun _ _ _ _ => 8) 40 (-74) "m1" db4
        (some 10)).accuracy_confidence = 1) ∧
    (m4.radius_meters ≤ 8 →
      (verify_location (fun _ _ _ _ => 8) 40 (-74) "m1" db4
        (some 10)).accuracy_confidence = 0) :=
  claim_C4_verify_location (fun _ _ _ _ => 8) 40 (-74) "m1" db4 (some 10) m4
    (by decide) (by norm_num [m4]) (by norm_num)
    (by intro a ha; rw [Option.mem_def, Option.some_inj] at ha; rw [← ha]; norm_num)

/-! ### Claim C10: general (meeting-less) session creation -/

/-- C10: when the participant has a live session, `create_general_session`
returns it and changes nothing (no auto-termination, unlike
`create_session`); when no live session exists, it inserts a new `ACTIVE`
meeting-less session with the fixed placeholder snapshot
(name "General Session", address "N/A", lat 0, lng 0). -/
theorem claim_C10_general_session (contact_id : String)
    (notes : Option String) (newId : String) (db : DB) :
    (∀ s, db.sessions.filter (liveFor contact_id) = [s] →
      create_general_session contact_id notes newId db =
        (CreateResult.ok s, db)) ∧
    (db.sessions.filter (liveFor contact_id) = [] →
      ∃ s', create_general_session contact_id notes newId db =
          (CreateResult.ok s', { db with sessions := db.sessions ++ [s'] }) ∧
        s'.status = SessionStatus.ACTIVE ∧ s'.meeting_id = none ∧
        s'.contact_id = contact_id ∧ s'.dest_name = "General Session" ∧
        s'.dest_address = "N/A" ∧ s'.dest_lat = 0 ∧ s'.dest_lng = 0) := by
  constructor
  · intro s hs
    unfold create_general_session get_active_session lookupOne
    rw [hs]
  · intro h0
    unfold create_general_session get_active_session lookupOne
    rw [h0]
    exact ⟨_, rfl, rfl, rfl, rfl, rfl, rfl, rfl, rfl⟩

/-- The live session of the C10 witness. -/
def s10 : Session :=
  { id := "s1", contact_id := "c1", meeting_id := some "m1",
    status := SessionStatus.ACTIVE, session_notes := none,
    dest_name := "Meet", dest_address := "1 Main St", dest_lat := 1,
    dest_lng := 2, is_complete := false }

/-- The database of the C10 witness. -/
def db10 : DB := { meetings := [], sessions := [s10], events := [] }

/-- Witness for C10: with one live session, the live session itself is
returned and the database is untouched. -/
theorem claim_C10_witness :
    create_general_session "c1" none "fresh" db10 = (CreateResult.ok s10, db10) :=
  (claim_C10_general_session "c1" none "fresh" db10).1 s10 (by decide)

/-! ### Claim C6: auto-termination of the prior live session -/

/-- The meeting of the C6 scenario. -/
def m6 : Meeting :=
  { id := "m1", name := "Weekly Meeting", address := "1 Main St",
    lat := 40, lng := -74, radius_meters := 100, is_active := true }

/-- The prior `CHECKED_IN` session of the C6 scenario. -/
def s6 : Session :=
  { id := "s1", contact_id := "c1", meeting_id := some "m0",
    status := SessionStatus.CHECKED_IN, session_notes := none,
    dest_name := "Old", dest_address := "2 Oak St", dest_lat := 3,
    dest_lng := 4, is_complete := false }

/-- The database of the C6 scenario. -/
def db6 : DB := { meetings := [m6], sessions := [s6], events := [] }

/-- Counterexample for C6 as stated: `create_session` for a participant
with a live `CHECKED_IN` session does transition it to `ENDED`, but appends
no `STATUS_CHANGE` event (the event table stays empty). -/
theorem claim_C6_counterexample :
    (create_session "c1" "m1" none "s2" db6).2.events = [] ∧
    (create_session "c1" "m1" none "s2" db6).2.sessions.map
        (fun s => (s.id, s.status)) =
      [("s1", SessionStatus.ENDED), ("s2", SessionStatus.ACTIVE)] := by
  constructor
  · rfl
  · rfl

/-- C6 (amended): with an existing active meeting and a live prior session,
`create_session` sets the prior session's status to `ENDED` (and marks it
complete) — the termination is only logged, no `STATUS_CHANGE` event row is
written — and inserts the new `ACTIVE` session with the destination
snapshot copied from the meeting; the event table is unchanged. -/
theorem claim_C6_amended (contact_id meeting_id : String)
    (notes : Option String) (newId : String) (db : DB) (m : Meeting)
    (prior : Session)
    (hm : lookupOne (fun x => x.id == meeting_id && x.is_active) db.meetings
      = some m)
    (ha : get_active_session contact_id db = some prior) :
    create_session contact_id meeting_id notes newId db =
      (CreateResult.ok
        { id := newId, contact_id := contact_id, meeting_id := some m.id,
          status := SessionStatus.ACTIVE, session_notes := notes,
          dest_name := m.name, dest_address := m.address, dest_lat := m.lat,
          dest_lng := m.lng, is_complete := false },
       { db with sessions :=
          db.sessions.map (fun s =>
            if s.id == prior.id then
              { s with status := SessionStatus.ENDED, is_complete := true }
            else s) ++
          [{ id := newId, contact_id := contact_id, meeting_id := some m.id,
             status := SessionStatus.ACTIVE, session_notes := notes,
             dest_name := m.name, dest_address := m.address,
             dest_lat := m.lat, dest_lng := m.lng,
             is_complete := false }] }) := by
  unfold create_session
  rw [hm]
  dsimp only
  rw [ha]

/-- Witness for C6 (amended) on the concrete C6 scenario. -/
theorem claim_C6_witness :
    create_session "c1" "m1" none "s2" db6 =
      (CreateResult.ok
        { id := "s2", contact_id := "c1", meeting_id := some m6.id,
          status := SessionStatus.ACTIVE, session_notes := none,
          dest_name := m6.name, dest_address := m6.address,
          dest_lat := m6.lat, dest_lng := m6.lng, is_complete := false },
       { db6 with sessions :=
          db6.sessions.map (fun s =>
            if s.id == s6.id then
              { s with status := SessionStatus.ENDED, is_complete := true }
            else s) ++
          [{ id := "s2", contact_id := "c1", meeting_id := some m6.id,
             status := SessionStatus.ACTIVE, session_notes := none,
             dest_name := m6.name, dest_address := m6.address,
             dest_lat := m6.lat, dest_lng := m6.lng,
             is_complete := false }] }) :=
  claim_C6_amended "c1" "m1" none "s2" db6 m6 s6 (by decide) (by decide)

/-! ### Claim C3: check-in gating and the test-meeting leniency flag -/

/-- Counterexample for C3 as stated: the code's leniency classification
(`is_test_meeting`, session_service.py line 193) is decided by the
substring `"AYA Demo"` of the meeting's display name — two meetings that
differ only in their name are classified differently. There is no
per-meeting lenient configuration column on `Meeting`. -/
theorem claim_C3_counterexample :
    is_test_meeting
      { id := "m1", name := "AYA Demo Meet", address := "1 Main St",
        lat := 40, lng := -74, radius_meters := 100, is_active := true }
      = true ∧
    is_test_meeting
      { id := "m1", name := "Community Meet", address := "1 Main St",
        lat := 40, lng := -74, radius_meters := 100, is_active := true }
      = false := by
  constructor
  · rfl
  · rfl

/-- A `(some event, _)` result of `create_session_event` for a check-in or
check-out with a non-empty meeting-id string implies the proximity check
passed: the event writer re-verifies the location. -/
theorem create_session_event_some_within (geo : Geo) (session_id : String)
    (event_type : EventType) (loc : LocationData) (mid : String)
    (notes : Option String) (db : DB) (ev : SessionEvent) (db' : DB)
    (h : create_session_event geo session_id event_type loc mid notes db =
      (some ev, db'))
    (hmid : mid ≠ "")
    (het : event_type = EventType.CHECK_IN ∨
      event_type = EventType.CHECK_OUT) :
    (verify_location geo loc.latitude loc.longitude mid db
      loc.accuracy).is_within_range = true := by
  unfold create_session_event at h
  dsimp only at h
  split at h
  · exact absurd h (by simp)
  next hcond =>
    rw [not_and] at hcond
    have := hcond ⟨hmid, het⟩
    simpa using this

/-- C3 (amended): for a session whose meeting-id string is non-empty,
`check_in` succeeds only when the proximity result is within range — the
`is_test_meeting` leniency flag (a name-substring / large-radius
heuristic, not a configuration value) never lets an out-of-range check-in
through, because `create_session_event` re-verifies the location and
refuses the event. -/
theorem claim_C3_amended (geo : Geo) (session_id : String)
    (loc : LocationData) (notes : Option String) (db : DB)
    (session : Session) (event : SessionEvent)
    (hs : lookupOne (fun s => s.id == session_id) db.sessions = some session)
    (hmid : pyStr session.meeting_id ≠ "")
    (hsucc : (check_in geo session_id loc notes db).1 = some event) :
    (verify_location geo loc.latitude loc.longitude
      (pyStr session.meeting_id) db loc.accuracy).is_within_range = true := by
  unfold check_in at hsucc
  rw [hs] at hsucc
  dsimp only at hsucc
  split at hsucc
  · exact absurd hsucc (by simp)
  · split at hsucc
    · exact absurd hsucc (by simp)
    next meeting hm =>
      split at hsucc
      · exact absurd hsucc (by simp)
      next hcond =>
        split at hsucc
        next o db' hev =>
          exact absurd hsucc (by simp)
        next ev db' hev =>
          exact create_session_event_some_within geo session_id
            EventType.CHECK_IN loc (pyStr session.meeting_id) notes db ev db'
            hev hmid (Or.inl rfl)

/-- The active session of the C3/C9 success scenario. -/
def s3 : Session :=
  { id := "s1", contact_id := "c1", meeting_id := some "m1",
    status := SessionStatus.ACTIVE, session_notes := none,
    dest_name := "Weekly Meeting", dest_address := "1 Main St",
    dest_lat := 40, dest_lng := -74, is_complete := false }

/-- The database of the C3/C9 success scenario. -/
def db3 : DB := { meetings := [m6], sessions := [s3], events := [] }

/-- Witness for C3 (amended): a concrete successful check-in at distance 5
of a 100 m geofence is within range. -/
theorem claim_C3_witness :
    (verify_location (fun _ _ _ _ => 5) 40 (-74) (pyStr s3.meeting_id) db3
      none).is_within_range = true :=
  claim_C3_amended (fun _ _ _ _ => 5) "s1"
    { latitude := 40, longitude := -74, accuracy := none } none db3 s3
    { session_id := "s1", type := EventType.CHECK_IN, lat := 40, lng := -74,
      accuracy := none, notes := none }
    (by decide) (by decide) (by decide)

/-! ### Claim C5: check-in on a session that is not ACTIVE -/

/-- The checked-in session of the C5 scenario. -/
def s5 : Session :=
  { id := "s1", contact_id := "c1", meeting_id := some "m1",
    status := SessionStatus.CHECKED_IN, session_notes := none,
    dest_name := "Weekly Meeting", dest_address := "1 Main St",
    dest_lat := 40, dest_lng := -74, is_complete := false }

/-- The database of the C5 scenario. -/
def db5 : DB := { meetings := [m6], sessions := [s5], events := [] }

/-- Counterexample for C5 as stated: check-in against a `CHECKED_IN`
session fails with a generic HTTP 400 (`HTTPException` from the endpoint,
after `SessionService.check_in` returns `None`), not with a
`ConflictError` (whose handler would answer 409); `ConflictError` is
defined in `core/exceptions.py` but never raised on this path. -/
theorem claim_C5_counterexample :
    endpoint_check_in (fun _ _ _ _ => 5) "s1"
        { latitude := 40, longitude := -74, accuracy := none } none db5 =
      (ApiOutcome.httpError 400, db5) ∧
    (400 : Nat) ≠ conflict_error_status ∧
    (lookupOne (fun s => s.id == "s1") db5.sessions).map Session.status =
      some SessionStatus.CHECKED_IN := by
  refine ⟨by decide, by decide, by decide⟩

/-- C5 (amended): `check_in` on a session that is not `ACTIVE` always
fails — the service returns `None` and the endpoint answers a generic
HTTP 400, not a `ConflictError`/409 — and the database (statuses, fields
and event history) is completely unchanged. -/
theorem claim_C5_amended (geo : Geo) (session_id : String)
    (loc : LocationData) (notes : Option String) (db : DB)
    (session : Session)
    (hs : lookupOne (fun s => s.id == session_id) db.sessions = some session)
    (hst : session.status ≠ SessionStatus.ACTIVE) :
    check_in geo session_id loc notes db = (none, db) ∧
    (is_location_valid loc.latitude loc.longitude loc.accuracy = true →
      endpoint_check_in geo session_id loc notes db =
        (ApiOutcome.httpError 400, db)) := by
  have hservice : check_in geo session_id loc notes db = (none, db) := by
    unfold check_in
    rw [hs]
    dsimp only
    rw [if_pos hst]
  refine ⟨hservice, ?_⟩
  intro hvalid
  unfold endpoint_check_in
  rw [hvalid]
  rw [if_neg (by simp)]
  rw [hservice]

/-- Witness for C5 (amended) on the concrete C5 scenario. -/
theorem claim_C5_witness :
    check_in (fun _ _ _ _ => 5) "s1"
        { latitude := 40, longitude := -74, accuracy := none } none db5 =
      (none, db5) ∧
    (is_location_valid 40 (-74) none = true →
      endpoint_check_in (fun _ _ _ _ => 5) "s1"
          { latitude := 40, longitude := -74, accuracy := none } none db5 =
        (ApiOutcome.httpError 400, db5)) :=
  claim_C5_amended (fun _ _ _ _ => 5) "s1"
    { latitude := 40, longitude := -74, accuracy := none } none db5 s5
    (by decide) (by decide)

/-! ### Claim C2: offline replay of a check-in against a CHECKED_IN session -/

/-- The queued offline check-in of the C2 scenario (targets the
`CHECKED_IN` session `s5` of `db5`). -/
def op2C : OfflineOperation :=
  { id := "op1", operation_type := "check_in",
    data := { latitude := 40, longitude := -74, accuracy := none,
              session_id := "s1", contact_id := "", meeting_id := "",
              notes := none, reason := none },
    user_id := "c1", priority := 1, max_retries := 3, retry_count := 0,
    created_at := 100, last_attempt := none, status := "pending" }

/-- The queue of the C2 scenario. -/
def q2C : QueueState := { pending := [(op2C, opScore op2C)], failed := [] }

/-- Counterexample for C2 as stated: replaying a check-in against a
session already `CHECKED_IN` appends no second `CHECK_IN` event (the
database is unchanged), but the queue does NOT treat it as a no-op
success: `process_operation` reports failure and re-queues the operation
with `retry_count` incremented to 1. -/
theorem claim_C2_counterexample :
    (process_operation (fun _ _ _ _ => 5) "fresh" 1000 op2C q2C db5).1
      = false ∧
    (process_operation (fun _ _ _ _ => 5) "fresh" 1000 op2C q2C db5).2.2
      = db5 ∧
    ((process_operation (fun _ _ _ _ => 5) "fresh" 1000 op2C q2C db5).2.1.pending.map
      (fun p => p.1.retry_count)) = [0, 1] := by
  refine ⟨by decide, by decide, by decide⟩

/-- C2 (amended): replaying an offline check-in against a session whose
status is `CHECKED_IN` appends no event and leaves the database untouched,
but the operation is counted as a failure: its `retry_count` is
incremented and it is re-queued as `"pending"`, or pushed onto the failed
list once `retry_count` reaches `max_retries`. -/
theorem claim_C2_amended (geo : Geo) (newId : String) (now : Nat)
    (op : OfflineOperation) (q : QueueState) (db : DB) (s : Session)
    (hty : op.operation_type = "check_in")
    (hs : lookupOne (fun x => x.id == op.data.session_id) db.sessions
      = some s)
    (hst : s.status = SessionStatus.CHECKED_IN) :
    (process_operation geo newId now op q db).1 = false ∧
    (process_operation geo newId now op q db).2.2 = db ∧
    (op.retry_count + 1 < op.max_retries →
      (process_operation geo newId now op q db).2.1 =
        update_operation q (op_requeue op now)) ∧
    (op.max_retries ≤ op.retry_count + 1 →
      (process_operation geo newId now op q db).2.1 =
        move_to_failed q (op_deadletter op now)) := by
  have hcheck : check_in geo op.data.session_id
      { latitude := op.data.latitude, longitude := op.data.longitude,
        accuracy := op.data.accuracy } op.data.notes db = (none, db) := by
    unfold check_in
    rw [hs]
    dsimp only
    rw [if_pos (by rw [hst]; decide)]
  have hdisp : dispatch_operation geo newId
      { op with status := "processing", last_attempt := some now } db =
      (false, db) := by
    unfold dispatch_operation
    dsimp only
    rw [hty]
    simp only [beq_self_eq_true, if_true]
    rw [hcheck]
    rfl
  unfold process_operation
  rw [if_neg (by simp [hty])]
  dsimp only
  rw [hdisp]
  dsimp only
  rw [if_neg (show ¬false = true by simp)]
  refine ⟨?_, ?_, ?_, ?_⟩
  · split <;> rfl
  · split <;> rfl
  · intro hlt
    rw [if_neg (by omega)]
    rfl
  · intro hge
    rw [if_pos (by omega)]
    rfl

/-- Witness for C2 (amended) on the concrete C2 scenario. -/
theorem claim_C2_witness :
    (process_operation (fun _ _ _ _ => 5) "w" 1000 op2C q2C db5).1 = false ∧
    (process_operation (fun _ _ _ _ => 5) "w" 1000 op2C q2C db5).2.2 = db5 ∧
    (op2C.retry_count + 1 < op2C.max_retries →
      (process_operation (fun _ _ _ _ => 5) "w" 1000 op2C q2C db5).2.1 =
        update_operation q2C (op_requeue op2C 1000)) ∧
    (op2C.max_retries ≤ op2C.retry_count + 1 →
      (process_operation (fun _ _ _ _ => 5) "w" 1000 op2C q2C db5).2.1 =
        move_to_failed q2C (op_deadletter op2C 1000)) :=
  claim_C2_amended (fun _ _ _ _ => 5) "w" 1000 op2C q2C db5 s5
    (by decide) (by decide) (by decide)

/-! ### Claim C9: success removes the whole pending queue -/

/-- First queued operation of the C9 scenario: a valid check-in for the
`ACTIVE` session `s3` of `db3`. -/
def opA9 : OfflineOperation :=
  { id := "opA", operation_type := "check_in",
    data := { latitude := 40, longitude := -74, accuracy := none,
              session_id := "s1", contact_id := "", meeting_id := "",
              notes := none, reason := none },
    user_id := "c1", priority := 1, max_retries := 3, retry_count := 0,
    created_at := 100, last_attempt := none, status := "pending" }

/-- Second queued operation of the C9 scenario, still unprocessed. -/
def opB9 : OfflineOperation :=
  { id := "opB", operation_type := "check_in",
    data := { latitude := 40, longitude := -74, accuracy := none,
              session_id := "s1", contact_id := "", meeting_id := "",
              notes := none, reason := none },
    user_id := "c1", priority := 1, max_retries := 3, retry_count := 0,
    created_at := 200, last_attempt := none, status := "pending" }

/-- The queue of the C9 scenario: two pending operations. -/
def q9 : QueueState :=
  { pending := [(opA9, opScore opA9), (opB9, opScore opB9)], failed := [] }

/-- C9 as evaluated on the code: processing `opA9` succeeds, and
`_remove_operation` (a `zremrangebyscore -inf +inf`) deletes the
participant's entire pending set — the untouched `opB9` is gone too,
contradicting the claim that every other pending operation remains. -/
theorem claim_C9_success_wipes_queue :
    (process_operation (fun _ _ _ _ => 5) "fresh" 1000 opA9 q9 db3).1
      = true ∧
    (process_operation (fun _ _ _ _ => 5) "fresh" 1000 opA9 q9 db3).2.1.pending
      = [] ∧
    q9.pending.map (fun p => p.1.id) = ["opA", "opB"] := by
  refine ⟨by decide, by decide, by decide⟩

/-! ### Claim C8: an exhausted operation is never removed from pending -/

/-- The exhausted copy (`retry_count = 2` of `max_retries = 3`) of the C8
operation. -/
def op8c : OfflineOperation :=
  { id := "op1", operation_type := "check_in",
    data := { latitude := 40, longitude := -74, accuracy := none,
              session_id := "missing", contact_id := "", meeting_id := "",
              notes := none, reason := none },
    user_id := "c1", priority := 1, max_retries := 3, retry_count := 2,
    created_at := 100, last_attempt := some 600, status := "pending" }

/-- The queue of the C8 scenario: the pending set has accumulated the
stale serializations of the same operation after two failed attempts
(`_update_operation` `ZADD`s a new member each time without removing the
old one). -/
def q8 : QueueState :=
  { pending :=
      [({ op8c with retry_count := 0, last_attempt := none }, opScore op8c),
       ({ op8c with retry_count := 1, last_attempt := some 500 }, opScore op8c),
       (op8c, opScore op8c)],
    failed := [] }

/-- The database of the C8 scenario: the target session does not exist, so
every replay fails. -/
def db8 : DB := { meetings := [], sessions := [], events := [] }

/-- C8 as evaluated on the code: the third failure pushes the operation
(`retry_count = 3 = max_retries`) onto the failed list, but the pending
set is not touched — all three stale copies of the operation are still
pending and still listed by `get_pending_operations`, so it keeps being
auto-retried, contradicting the claim. -/
theorem claim_C8_exhausted_op_still_pending :
    (process_operation (fun _ _ _ _ => 5) "fresh" 1000 op8c q8 db8).1
      = false ∧
    ((process_operation (fun _ _ _ _ => 5) "fresh" 1000 op8c q8 db8).2.1.failed.map
      (fun o => (o.id, o.retry_count, o.status)))
      = [("op1", 3, "failed")] ∧
    ((process_operation (fun _ _ _ _ => 5) "fresh" 1000 op8c q8 db8).2.1.pending.map
      (fun p => p.1.id)) = ["op1", "op1", "op1"] ∧
    ((get_pending_operations
        (process_operation (fun _ _ _ _ => 5) "fresh" 1000 op8c q8 db8).2.1 50).map
      (fun o => o.id)) = ["op1", "op1", "op1"] := by
  refine ⟨by decide, by decide, by decide, by decide⟩

/-! ### Claim C7: priority ordering of the offline queue -/

/-- `a` occurs at a strictly earlier position than `b` in `l`. -/
def listedBefore {α : Type} (l : List α) (a b : α) : Prop :=
  ∃ i j, ∃ (hi : i < l.length) (hj : j < l.length),
    i < j ∧ l[i] = a ∧ l[j] = b

/-- In the sorted pending listing, an operation with the strictly larger
stored score is listed before one with a smaller score. -/
theorem listedBefore_of_score (q : QueueState) (limit : Nat)
    (a b : OfflineOperation) (sa sb : Int)
    (ha : (a, sa) ∈ q.pending) (hb : (b, sb) ∈ q.pending)
    (hlim : q.pending.length ≤ limit) (hgt : sb < sa) :
    listedBefore (get_pending_operations q limit) a b := by
  unfold get_pending_operations
  have hperm := List.perm_insertionSort scoreGE q.pending
  have hlen : (List.insertionSort scoreGE q.pending).length =
      q.pending.length := hperm.length_eq
  rw [List.take_of_length_le (by rw [hlen]; exact hlim)]
  have hsorted : (List.insertionSort scoreGE q.pending).Pairwise scoreGE :=
    List.sorted_insertionSort scoreGE q.pending
  have hma : (a, sa) ∈ List.insertionSort scoreGE q.pending :=
    hperm.mem_iff.mpr ha
  have hmb : (b, sb) ∈ List.insertionSort scoreGE q.pending :=
    hperm.mem_iff.mpr hb
  obtain ⟨i, hi, hgi⟩ := List.mem_iff_getElem.mp hma
  obtain ⟨j, hj, hgj⟩ := List.mem_iff_getElem.mp hmb
  have hij : i < j := by
    rcases lt_trichotomy i j with h | h | h
    · exact h
    · exfalso
      have hss : (a, sa).2 = (b, sb).2 := by
        subst h
        rw [← hgi, ← hgj]
      have : sa = sb := hss
      omega
    · exfalso
      have := List.pairwise_iff_getElem.mp hsorted j i hj hi h
      rw [hgi, hgj] at this
      have : sa ≤ sb := this
      omega
  refine ⟨i, j, ?_, ?_, hij, ?_, ?_⟩
  · rw [List.length_map]
    exact hi
  · rw [List.length_map]
    exact hj
  · rw [List.getElem_map, hgi]
  · rw [List.getElem_map, hgj]

/-- First operation of the C7 counterexample: high priority, created
5 000 000 s after the epoch used for the other one. -/
def opA7 : OfflineOperation :=
  { id := "a", operation_type := "check_in", data := {}, user_id := "c1",
    priority := 5, max_retries := 3, retry_count := 0,
    created_at := 5000000, last_attempt := none, status := "pending" }

/-- Second operation of the C7 counterexample: low priority but much
older. -/
def opB7 : OfflineOperation :=
  { id := "b", operation_type := "check_in", data := {}, user_id := "c1",
    priority := 1, max_retries := 3, retry_count := 0,
    created_at := 0, last_attempt := none, status := "pending" }

/-- The queue of the C7 counterexample. -/
def q7 : QueueState :=
  { pending := [(opA7, opScore opA7), (opB7, opScore opB7)], failed := [] }

/-- Counterexample for C7 as stated: with the ordering key
`priority * 1000000 - createdAtEpochSeconds`, a priority-1 operation
created 5 000 000 s earlier outranks a priority-5 operation
(scores 1 000 000 vs 0), so the strictly-higher-priority operation is NOT
always processed first. -/
theorem claim_C7_counterexample :
    opB7.priority < opA7.priority ∧
    get_pending_operations q7 50 = [opB7, opA7] := by
  refine ⟨by decide, by decide⟩

/-- C7 (amended): under the ordering key
`priority * 1000000 - createdAtEpochSeconds`, the higher-priority
operation is listed first only when the creation-time gap is less than
`1000000 ×` the priority difference (which holds in particular for
operations created within 10⁶ s ≈ 11.6 days of each other); within equal
priority, the strictly older operation is always listed first (FIFO). -/
theorem claim_C7_amended (q : QueueState) (limit : Nat)
    (a b : OfflineOperation) (sa sb : Int)
    (ha : (a, sa) ∈ q.pending) (hb : (b, sb) ∈ q.pending)
    (hsa : sa = opScore a) (hsb : sb = opScore b)
    (hlim : q.pending.length ≤ limit) :
    (b.priority < a.priority ∧
        (a.created_at : Int) - b.created_at <
          (a.priority - b.priority) * 1000000 →
      listedBefore (get_pending_operations q limit) a b) ∧
    (a.priority = b.priority ∧ a.created_at < b.created_at →
      listedBefore (get_pending_operations q limit) a b) := by
  constructor
  · rintro ⟨hp, ht⟩
    apply listedBefore_of_score q limit a b sa sb ha hb hlim
    rw [hsa, hsb]
    unfold opScore
    omega
  · rintro ⟨hp, ht⟩
    apply listedBefore_of_score q limit a b sa sb ha hb hlim
    rw [hsa, hsb]
    unfold opScore
    omega

/-- Witness operation of high priority created shortly after `opB7w`. -/
def opA7w : OfflineOperation :=
  { id := "a", operation_type := "check_in", data := {}, user_id := "c1",
    priority := 5, max_retries := 3, retry_count := 0,
    created_at := 100, last_attempt := none, status := "pending" }

/-- Witness operation of low priority. -/
def opB7w : OfflineOperation :=
  { id := "b", operation_type := "check_in", data := {}, user_id := "c1",
    priority := 1, max_retries := 3, retry_count := 0,
    created_at := 0, last_attempt := none, status := "pending" }

/-- The queue of the C7 witness. -/
def q7w : QueueState :=
  { pending := [(opB7w, opScore opB7w), (opA7w, opScore opA7w)],
    failed := [] }

/-- Witness for C7 (amended): within the 10⁶ s window, the priority-5
operation is listed before the older priority-1 one. -/
theorem claim_C7_witness :
    listedBefore (get_pending_operations q7w 50) opA7w opB7w :=
  (claim_C7_amended q7w 50 opA7w opB7w (opScore opA7w) (opScore opB7w)
    (by decide) (by decide) rfl rfl (by decide)).1 ⟨by decide, by decide⟩

end VC
